import Mathlib

/-!
Shallow embedding of the cinema_app repository core:
the multi-facet movie search pipeline (`src/app/views/movie_search.py`),
the list consolidation and reconciliation logic (`src/app/views/my_lists.py`),
and the user-state services (`src/app/services/watchhistory.py`,
`src/app/services/mylist.py`) over the SQLite schema of
`src/db/movie_app_db.py`.

Modelling conventions:
* Dates are abstract `Nat` timestamps; `epochSentinel` stands for the
  pandas `Timestamp("1970-01-01")` display sentinel.  Python `d or now`
  on an optional date is `Option.getD` (every concrete date is truthy in
  Python, `None` is falsy).
* Ratings are `Option Int` (the `rating` column is a nullable float; only
  equality of values matters to the claims, so an integral carrier is used).
* A table is a list of rows.  The composite primary keys
  `(user_id, movie_id)` of `watch_history` and `mylist`
  (`movie_app_db.py`) make a duplicate insert fail at commit; `create_*`
  therefore returns `Except ConstraintViolation`.  `watch_date` is a
  `NOT NULL` column (`nullable=False`), so stored entries carry a plain
  `Nat` date.
* Streamlit / pandas dataframe columns holding NaN are modelled with
  `Option`; a pandas dataframe is a list of rows, and column assignment
  by aligned index is a positional `zip`/`map`.
-/

namespace CinemaApp

/-! ## Data model (`src/db/movie_app_db.py`) -/

/-- A row of the `watch_history` table: composite primary key
`(user_id, movie_id)`, `watch_date` NOT NULL, nullable `rating`,
`is_favorite` NOT NULL. -/
structure WHEntry where
  user_id : Nat
  movie_id : Nat
  watch_date : Nat
  rating : Option Int
  is_favorite : Bool
deriving DecidableEq

/-- A row of the `mylist` table: composite primary key
`(user_id, movie_id)`, no further fields. -/
structure MLEntry where
  user_id : Nat
  movie_id : Nat
deriving DecidableEq

/-- The error surfaced when an INSERT collides with the composite primary
key `(user_id, movie_id)` (SQLAlchemy `IntegrityError` at commit). -/
inductive ConstraintViolation
  | duplicateKey
deriving DecidableEq

abbrev WHTable := List WHEntry
abbrev MLTable := List MLEntry

/-- The user-state store: the `watch_history` and `mylist` tables. -/
structure DB where
  wh : WHTable
  ml : MLTable
deriving DecidableEq

/-- Key predicate: row `e` has primary key `(u, m)`. -/
def whKeyIs (u m : Nat) (e : WHEntry) : Bool :=
  e.user_id == u && e.movie_id == m

def mlKeyIs (u m : Nat) (e : MLEntry) : Bool :=
  e.user_id == u && e.movie_id == m

/-- The at-most-one-row-per-`(user, movie)` invariant enforced by the
composite primary key of `watch_history`. -/
def whKeysNodup (wh : WHTable) : Prop :=
  (wh.map fun e => (e.user_id, e.movie_id)).Nodup

/-- The at-most-one-row-per-`(user, movie)` invariant enforced by the
composite primary key of `mylist`. -/
def mlKeysNodup (ml : MLTable) : Prop :=
  (ml.map fun e => (e.user_id, e.movie_id)).Nodup

/-! ## WatchHistoryService (`src/app/services/watchhistory.py`) -/

/-- `WatchHistoryService.read_watch_history`: first row matching the
`(user_id, movie_id)` filter, if any. -/
def read_watch_history (wh : WHTable) (user_id movie_id : Nat) : Option WHEntry :=
  wh.find? (whKeyIs user_id movie_id)

/-- `WatchHistoryService.create_watch_history`: `session.add` + `commit`.
The commit inserts the new row, or fails with an integrity error when a
row with the same composite primary key already exists. -/
def create_watch_history (wh : WHTable) (user_id movie_id : Nat)
    (watch_date : Nat) (rating : Option Int) (is_favorite : Bool) :
    Except ConstraintViolation WHTable :=
  if (read_watch_history wh user_id movie_id).isSome then
    .error .duplicateKey
  else
    .ok (wh ++ [⟨user_id, movie_id, watch_date, rating, is_favorite⟩])

/-- `WatchHistoryService.update_watch_history`: look the row up; if found,
overwrite exactly the fields whose argument is not `None`, then commit.
A missing row means no change at all. -/
def update_watch_history (wh : WHTable) (user_id movie_id : Nat)
    (watch_date : Option Nat) (rating : Option Int) (is_favorite : Option Bool) :
    WHTable :=
  match read_watch_history wh user_id movie_id with
  | none => wh
  | some _ =>
      wh.map fun e =>
        if whKeyIs user_id movie_id e then
          { e with
            rating := if rating.isSome then rating else e.rating
            is_favorite := is_favorite.getD e.is_favorite
            watch_date := watch_date.getD e.watch_date }
        else e

/-- `WatchHistoryService.delete_watch_history`: look the row up; delete it
when present, otherwise do nothing. -/
def delete_watch_history (wh : WHTable) (user_id movie_id : Nat) : WHTable :=
  match read_watch_history wh user_id movie_id with
  | none => wh
  | some _ => wh.filter fun e => !whKeyIs user_id movie_id e

/-- `WatchHistoryService.delete_complete_watch_history`: raw SQL
`DELETE FROM watch_history WHERE user_id = ?`. -/
def delete_complete_watch_history (wh : WHTable) (user_id : Nat) : WHTable :=
  wh.filter fun e => e.user_id != user_id

/-- `WatchHistoryService.read_user_watch_history`: all rows of one user. -/
def read_user_watch_history (wh : WHTable) (user_id : Nat) : WHTable :=
  wh.filter fun e => e.user_id == user_id

/-- `WatchHistoryService.is_in_watchhistory`: one boolean per input movie
identifier, by an existence lookup (`.apply` over the series). -/
def is_in_watchhistory (wh : WHTable) (user_id : Nat) (movie_ids : List Nat) :
    List Bool :=
  movie_ids.map fun m => (read_watch_history wh user_id m).isSome

/-! ## MylistService (`src/app/services/mylist.py`) -/

/-- `MylistService.read_mylist`. -/
def read_mylist (ml : MLTable) (user_id movie_id : Nat) : Option MLEntry :=
  ml.find? (mlKeyIs user_id movie_id)

/-- `MylistService.create_mylist`: `session.add` + `commit`, rejected by
the composite primary key when the row already exists. -/
def create_mylist (ml : MLTable) (user_id movie_id : Nat) :
    Except ConstraintViolation MLTable :=
  if (read_mylist ml user_id movie_id).isSome then
    .error .duplicateKey
  else
    .ok (ml ++ [⟨user_id, movie_id⟩])

/-- `MylistService.delete_mylist`. -/
def delete_mylist (ml : MLTable) (user_id movie_id : Nat) : MLTable :=
  match read_mylist ml user_id movie_id with
  | none => ml
  | some _ => ml.filter fun e => !mlKeyIs user_id movie_id e

/-- `MylistService.read_user_mylist`. -/
def read_user_mylist (ml : MLTable) (user_id : Nat) : MLTable :=
  ml.filter fun e => e.user_id == user_id

/-- `MylistService.is_in_mylist`: the loop appending one existence check
per movie identifier. -/
def is_in_mylist (ml : MLTable) (user_id : Nat) (movie_ids : List Nat) :
    List Bool :=
  movie_ids.map fun m => (read_mylist ml user_id m).isSome

/-! ## Movie search (`src/app/views/movie_search.py`) -/

/-- One row of a facet provider's result dataframe (a `Movie` record;
only the identifier and the display name matter to the claims). -/
structure MovieRow where
  movie_id : Nat
  movie_name : String
deriving DecidableEq

/-- The set of movie identifiers of a result dataframe
(`set(df["movie_id"])`). -/
def idSet (df : List MovieRow) : Finset Nat :=
  (df.map fun r => r.movie_id).toFinset

/-- The loop body of `intersect_results`: intersect the running
`common_movie_ids` with each further result set, returning early
(`none`, standing for the early `return pd.DataFrame()`) as soon as one
of them is empty. -/
def foldCommon (common : Finset Nat) : List (List MovieRow) → Option (Finset Nat)
  | [] => some common
  | df :: rest =>
      if df.isEmpty then none
      else foldCommon (common ∩ idSet df) rest

/-- `pd.concat(...).drop_duplicates(subset="movie_id")`: keep the first
row seen for each movie identifier. -/
def dedupByMovieIdAux (seen : List Nat) : List MovieRow → List MovieRow
  | [] => []
  | r :: rs =>
      if seen.contains r.movie_id then dedupByMovieIdAux seen rs
      else r :: dedupByMovieIdAux (r.movie_id :: seen) rs

def dedupByMovieId (l : List MovieRow) : List MovieRow :=
  dedupByMovieIdAux [] l

/-- `intersect_results`: if the first result set is empty return an empty
frame; otherwise intersect the movie-identifier sets (returning an empty
frame as soon as one set is empty), filter every result set down to the
common identifiers, concatenate, and drop duplicate movie identifiers
keeping the first occurrence.  The source indexes `result_sets[0]`,
which its only caller guards to exist; an empty argument list maps to an
empty frame here. -/
def intersect_results (result_sets : List (List MovieRow)) : List MovieRow :=
  match result_sets with
  | [] => []
  | first :: rest =>
      if first.isEmpty then []
      else
        match foldCommon (idSet first) rest with
        | none => []
        | some common =>
            let filtered := result_sets.map fun df =>
              df.filter fun r => r.movie_id ∈ common
            dedupByMovieId filtered.flatten

/-- The sidebar filter values of `show_movie_search_page`; an empty
string or empty list is a skipped (inactive) facet. -/
structure Filters where
  search_query : String
  selected_genres : List String
  selected_persons : String
  selected_studios : String
  selected_keywords : String
deriving DecidableEq

/-- The facet query providers of `MovieService` consulted by
`execute_queries`, abstracted as functions from filter value to result
dataframe. -/
structure Providers where
  query_by_title : String → List MovieRow
  query_by_genre : List String → List MovieRow
  query_by_keyword : String → List MovieRow
  query_by_person : String → List MovieRow
  query_by_studio : String → List MovieRow

/-- `execute_queries`: consult, in source order (title, genre, keyword,
person, studio), exactly the providers whose filter value is truthy, and
collect their result dataframes. -/
def execute_queries (ms : Providers) (f : Filters) : List (List MovieRow) :=
  (if f.search_query ≠ "" then [ms.query_by_title f.search_query] else []) ++
  (if f.selected_genres ≠ [] then [ms.query_by_genre f.selected_genres] else []) ++
  (if f.selected_keywords ≠ "" then [ms.query_by_keyword f.selected_keywords] else []) ++
  (if f.selected_persons ≠ "" then [ms.query_by_person f.selected_persons] else []) ++
  (if f.selected_studios ≠ "" then [ms.query_by_studio f.selected_studios] else [])

/-- The observable outcome of pressing the Search button in
`show_movie_search_page`: no result display at all (the guard
`result_sets and not result_sets[0].empty` failed), the
"No movies found with the selected criteria." message, or a displayed
result dataframe. -/
inductive SearchOutcome
  | noDisplay
  | noMatches
  | results (df : List MovieRow)
deriving DecidableEq

/-- The Search-button branch of `show_movie_search_page` (lines 89-102):
run `execute_queries`, and display `intersect_results` of the result
sets when the list is non-empty and its first set is non-empty. -/
def search_button_outcome (ms : Providers) (f : Filters) : SearchOutcome :=
  match execute_queries ms f with
  | [] => .noDisplay
  | first :: _ =>
      if first.isEmpty then .noDisplay
      else
        let filtered := intersect_results (execute_queries ms f)
        if filtered.isEmpty then .noMatches else .results filtered

/-- "Zero facets are active": every filter value is empty or absent. -/
def noActiveFacets (f : Filters) : Prop :=
  f.search_query = "" ∧ f.selected_genres = [] ∧ f.selected_persons = "" ∧
  f.selected_studios = "" ∧ f.selected_keywords = ""

/-- A search-result row after `update_with_user_data` added the
`in_watch_history` and `in_mylist` columns. -/
structure AnnotRow where
  row : MovieRow
  in_watch_history : Bool
  in_mylist : Bool
deriving DecidableEq

/-- `update_with_user_data`: compute the `is_in_watchhistory` and
`is_in_mylist` boolean series for the dataframe's movie identifiers and
assign them as two new columns (series assignment aligns by the
`movie_id` index, i.e. positionally here).  Both service calls only
issue SELECT queries, so the store is returned unchanged. -/
def update_with_user_data (db : DB) (user_id : Nat) (rows : List MovieRow) :
    DB × List AnnotRow :=
  let whFlags := is_in_watchhistory db.wh user_id (rows.map fun r => r.movie_id)
  let mlFlags := is_in_mylist db.ml user_id (rows.map fun r => r.movie_id)
  (db, (rows.zip (whFlags.zip mlFlags)).map fun p => ⟨p.1, p.2.1, p.2.2⟩)

/-- `handle_mylist_logic` (movie_search.py): toggle-driven create/delete
of the `mylist` row.  A failed commit (duplicate key) leaves the table
unchanged and the error is surfaced in the second component. -/
def handle_mylist_logic (db : DB) (user_id movie_id : Nat)
    (is_in_mylist original_in_mylist : Bool) : DB × Option ConstraintViolation :=
  if is_in_mylist && !original_in_mylist then
    match create_mylist db.ml user_id movie_id with
    | .ok ml' => ({ db with ml := ml' }, none)
    | .error e => (db, some e)
  else if !is_in_mylist && original_in_mylist then
    ({ db with ml := delete_mylist db.ml user_id movie_id }, none)
  else (db, none)

/-- `handle_watch_history_logic` (movie_search.py): toggle-driven
create/delete of the `watch_history` row; the create passes
`watch_date=datetime.now()` and leaves `rating`/`is_favorite` at their
defaults (`None`, `False`). -/
def handle_watch_history_logic (db : DB) (user_id movie_id : Nat)
    (is_in_watch_history original_in_watch_history : Bool) (now : Nat) :
    DB × Option ConstraintViolation :=
  if is_in_watch_history && !original_in_watch_history then
    match create_watch_history db.wh user_id movie_id now none false with
    | .ok wh' => ({ db with wh := wh' }, none)
    | .error e => (db, some e)
  else if !is_in_watch_history && original_in_watch_history then
    ({ db with wh := delete_watch_history db.wh user_id movie_id }, none)
  else (db, none)

/-! ## List consolidation and reconciliation (`src/app/views/my_lists.py`) -/

/-- The pandas `Timestamp("1970-01-01")` display sentinel filled into
absent watch dates by `get_consolidated_dataframe`. -/
def epochSentinel : Nat := 0

/-- One row of the consolidated dataframe built by
`get_consolidated_dataframe`.  `Option` fields model columns that can
hold NaN/None: in the branch that concatenates watch-history rows with
mylist-only rows, the mylist-only rows have no `in_watch_history`,
`watch_date`, `rating` or `is_favorite` values, so those cells are NaN. -/
structure ConsRow where
  movie_id : Nat
  in_watch_history : Option Bool
  in_mylist : Bool
  watch_date : Option Nat
  rating : Option Int
  is_favorite : Option Bool
  movie_name : String
deriving DecidableEq

/-- `get_consolidated_dataframe`: fetch the user's watch-history rows
(marked `in_watch_history = True`) and mylist rows (marked
`in_mylist = True`); when both are non-empty, append the mylist rows for
movies absent from the watch history and recompute `in_mylist` by an
`isin` test, leaving the appended rows' watch-history columns NaN; when
only one source is non-empty, use it with the defaults of the
corresponding branch; finally attach display names
(`read_movie_names`, modelled by the `names` lookup) and replace any
absent watch date with the epoch sentinel (`fillna`). -/
def get_consolidated_dataframe (db : DB) (user_id : Nat) (names : Nat → String) :
    List ConsRow :=
  let whRows := read_user_watch_history db.wh user_id
  let mlRows := read_user_mylist db.ml user_id
  let rows : List ConsRow :=
    if !whRows.isEmpty && !mlRows.isEmpty then
      let mlIds := mlRows.map fun e => e.movie_id
      let whIds := whRows.map fun e => e.movie_id
      let mlOnly := mlRows.filter fun e => !whIds.contains e.movie_id
      (whRows.map fun e =>
        { movie_id := e.movie_id
          in_watch_history := some true
          in_mylist := mlIds.contains e.movie_id
          watch_date := some e.watch_date
          rating := e.rating
          is_favorite := some e.is_favorite
          movie_name := "" }) ++
      (mlOnly.map fun e =>
        { movie_id := e.movie_id
          in_watch_history := none
          in_mylist := mlIds.contains e.movie_id
          watch_date := none
          rating := none
          is_favorite := none
          movie_name := "" })
    else if !whRows.isEmpty then
      whRows.map fun e =>
        { movie_id := e.movie_id
          in_watch_history := some true
          in_mylist := false
          watch_date := some e.watch_date
          rating := e.rating
          is_favorite := some e.is_favorite
          movie_name := "" }
    else if !mlRows.isEmpty then
      mlRows.map fun e =>
        { movie_id := e.movie_id
          in_watch_history := some false
          in_mylist := true
          watch_date := none
          rating := some 0
          is_favorite := none
          movie_name := "" }
    else []
  rows.map fun r =>
    { r with
      movie_name := names r.movie_id
      watch_date := some (r.watch_date.getD epochSentinel) }

/-- One storage call issued against the `watch_history` table by the
reconciliation logic. -/
inductive WHAction
  | create (user_id movie_id watch_date : Nat) (rating : Option Int)
      (is_favorite : Bool)
  | update (user_id movie_id : Nat) (watch_date : Option Nat)
      (rating : Option Int) (is_favorite : Option Bool)
  | delete (user_id movie_id : Nat)
deriving DecidableEq

/-- One storage call issued against the `mylist` table. -/
inductive MLAction
  | create (user_id movie_id : Nat)
  | delete (user_id movie_id : Nat)
deriving DecidableEq

def WHAction.isCreate : WHAction → Bool
  | .create _ _ _ _ _ => true
  | _ => false

def WHAction.isDelete : WHAction → Bool
  | .delete _ _ => true
  | _ => false

/-- Python truthiness of the `in_watch_history` cell read from the
consolidated dataframe: `False` is falsy; `True` is truthy; a NaN cell
(`none`) is a float NaN, which is truthy in Python. -/
def pyTruthy (b : Option Bool) : Bool :=
  b != some false

/-- `handle_watch_history_update`: compare the edited widget values
against the row's previous `in_watch_history` flag and issue the
corresponding `WatchHistoryService` call.  An absent-to-present toggle
creates the entry with `watch_date or datetime.now()`; a
present-to-absent toggle deletes it; whenever the entry stays present an
update carrying all three fields is issued.  The second component
records the storage calls made; a duplicate-key failure of the create
leaves the table unchanged and surfaces the error. -/
def handle_watch_history_update (wh : WHTable) (user_id : Nat)
    (movie_data : ConsRow) (in_watch_history : Bool) (watch_date : Option Nat)
    (rating : Int) (is_favorite : Bool) (now : Nat) :
    Except ConstraintViolation (WHTable × List WHAction) :=
  let movie_id := movie_data.movie_id
  let prev := pyTruthy movie_data.in_watch_history
  if in_watch_history && !prev then
    match create_watch_history wh user_id movie_id (watch_date.getD now)
        (some rating) is_favorite with
    | .ok wh' =>
        .ok (wh', [.create user_id movie_id (watch_date.getD now) (some rating)
          is_favorite])
    | .error e => .error e
  else if !in_watch_history && prev then
    .ok (delete_watch_history wh user_id movie_id, [.delete user_id movie_id])
  else if in_watch_history then
    .ok (update_watch_history wh user_id movie_id watch_date (some rating)
          (some is_favorite),
        [.update user_id movie_id watch_date (some rating) (some is_favorite)])
  else .ok (wh, [])

/-- `handle_mylist_update`: toggle-driven create/delete of the `mylist`
row, with the storage calls recorded in the second component. -/
def handle_mylist_update (ml : MLTable) (user_id : Nat) (movie_data : ConsRow)
    (in_mylist : Bool) : Except ConstraintViolation (MLTable × List MLAction) :=
  let movie_id := movie_data.movie_id
  let prev := movie_data.in_mylist
  if in_mylist && !prev then
    match create_mylist ml user_id movie_id with
    | .ok ml' => .ok (ml', [.create user_id movie_id])
    | .error e => .error e
  else if !in_mylist && prev then
    .ok (delete_mylist ml user_id movie_id, [.delete user_id movie_id])
  else .ok (ml, [])

/-- The edited widget values of one movie row on the my-lists page. -/
structure EditedSnapshot where
  in_watch_history : Bool
  in_mylist : Bool
  watch_date : Option Nat
  rating : Int
  is_favorite : Bool
deriving DecidableEq

/-- One application of an edited snapshot for one `(user, movie)` pair,
as `display_movie_entry` performs it: the previous flags are read off a
freshly rendered consolidated row (which reflects current storage), then
`handle_watch_history_update` and `handle_mylist_update` run in turn. -/
def apply_edited_snapshot (db : DB) (user_id movie_id : Nat)
    (e : EditedSnapshot) (now : Nat) :
    Except ConstraintViolation (DB × List WHAction × List MLAction) :=
  let prevRow : ConsRow :=
    { movie_id := movie_id
      in_watch_history := some (read_watch_history db.wh user_id movie_id).isSome
      in_mylist := (read_mylist db.ml user_id movie_id).isSome
      watch_date := none
      rating := none
      is_favorite := none
      movie_name := "" }
  match handle_watch_history_update db.wh user_id prevRow e.in_watch_history
      e.watch_date e.rating e.is_favorite now with
  | .error er => .error er
  | .ok (wh', wa) =>
      match handle_mylist_update db.ml user_id prevRow e.in_mylist with
      | .error er => .error er
      | .ok (ml', ma) => .ok (⟨wh', ml'⟩, wa, ma)

/-! ## Store-level single-statement mutations, lifted to the pair of
user-state tables.  Each service method of `watchhistory.py` /
`mylist.py` executes SQL against exactly one table; these wrappers make
that frame property statable over the whole store. -/

def db_create_mylist (db : DB) (user_id movie_id : Nat) :
    DB × Option ConstraintViolation :=
  match create_mylist db.ml user_id movie_id with
  | .ok ml' => ({ db with ml := ml' }, none)
  | .error e => (db, some e)

def db_delete_mylist (db : DB) (user_id movie_id : Nat) : DB :=
  { db with ml := delete_mylist db.ml user_id movie_id }

def db_create_watch_history (db : DB) (user_id movie_id watch_date : Nat)
    (rating : Option Int) (is_favorite : Bool) : DB × Option ConstraintViolation :=
  match create_watch_history db.wh user_id movie_id watch_date rating is_favorite with
  | .ok wh' => ({ db with wh := wh' }, none)
  | .error e => (db, some e)

def db_update_watch_history (db : DB) (user_id movie_id : Nat)
    (watch_date : Option Nat) (rating : Option Int) (is_favorite : Option Bool) :
    DB :=
  { db with wh := update_watch_history db.wh user_id movie_id watch_date rating is_favorite }

def db_delete_watch_history (db : DB) (user_id movie_id : Nat) : DB :=
  { db with wh := delete_watch_history db.wh user_id movie_id }

def db_delete_complete_watch_history (db : DB) (user_id : Nat) : DB :=
  { db with wh := delete_complete_watch_history db.wh user_id }

/-! ## Shared lemmas about the services -/

theorem read_watch_history_eq_none_iff (wh : WHTable) (u m : Nat) :
    read_watch_history wh u m = none ↔ ∀ e ∈ wh, whKeyIs u m e = false := by
  simp [read_watch_history, List.find?_eq_none]

theorem read_mylist_eq_none_iff (ml : MLTable) (u m : Nat) :
    read_mylist ml u m = none ↔ ∀ e ∈ ml, mlKeyIs u m e = false := by
  simp [read_mylist, List.find?_eq_none]

theorem read_watch_history_isSome_iff (wh : WHTable) (u m : Nat) :
    (read_watch_history wh u m).isSome ↔ ∃ e ∈ wh, whKeyIs u m e = true := by
  simp [read_watch_history, List.find?_isSome]

theorem read_mylist_isSome_iff (ml : MLTable) (u m : Nat) :
    (read_mylist ml u m).isSome ↔ ∃ e ∈ ml, mlKeyIs u m e = true := by
  simp [read_mylist, List.find?_isSome]

theorem whKeyIs_self (u m d : Nat) (r : Option Int) (f : Bool) :
    whKeyIs u m ⟨u, m, d, r, f⟩ = true := by
  simp [whKeyIs]

theorem mlKeyIs_self (u m : Nat) : mlKeyIs u m ⟨u, m⟩ = true := by
  simp [mlKeyIs]

/-! ## C10 -/

/-- Claim C10: for every existing `WatchHistoryEntry`, calling
`update_watch_history` with `None` for any of `watch_date`, `rating` or
`is_favorite` leaves that field's stored value unchanged (only the
non-`None` arguments overwrite fields), and calling it for a
`(user, movie)` key with no existing entry leaves storage entirely
unchanged. -/
theorem C10_update_none_frame (wh : WHTable) (u m : Nat) :
    ((∀ r f, (update_watch_history wh u m none r f).map (fun e => e.watch_date)
        = wh.map fun e => e.watch_date)
    ∧ (∀ wd f, (update_watch_history wh u m wd none f).map (fun e => e.rating)
        = wh.map fun e => e.rating)
    ∧ (∀ wd r, (update_watch_history wh u m wd r none).map (fun e => e.is_favorite)
        = wh.map fun e => e.is_favorite))
    ∧ (∀ d r' f' e', e' ∈ update_watch_history wh u m (some d) (some r') (some f') →
        whKeyIs u m e' = true →
        e'.watch_date = d ∧ e'.rating = some r' ∧ e'.is_favorite = f')
    ∧ (read_watch_history wh u m = none → ∀ wd r f,
        update_watch_history wh u m wd r f = wh) := by
  refine ⟨⟨?_, ?_, ?_⟩, ?_, ?_⟩
  · intro r f
    unfold update_watch_history
    cases read_watch_history wh u m with
    | none => rfl
    | some _ =>
        simp only [List.map_map]
        refine List.map_congr_left fun e _ => ?_
        by_cases h : whKeyIs u m e = true <;> simp [h]
  · intro wd f
    unfold update_watch_history
    cases read_watch_history wh u m with
    | none => rfl
    | some _ =>
        simp only [List.map_map]
        refine List.map_congr_left fun e _ => ?_
        by_cases h : whKeyIs u m e = true <;> simp [h]
  · intro wd r
    unfold update_watch_history
    cases read_watch_history wh u m with
    | none => rfl
    | some _ =>
        simp only [List.map_map]
        refine List.map_congr_left fun e _ => ?_
        by_cases h : whKeyIs u m e = true <;> simp [h]
  · intro d r' f' e' hmem hkey
    unfold update_watch_history at hmem
    cases hr : read_watch_history wh u m with
    | none =>
        rw [hr] at hmem
        have := (read_watch_history_eq_none_iff wh u m).mp hr e' hmem
        simp [this] at hkey
    | some e0 =>
        rw [hr] at hmem
        rcases List.mem_map.mp hmem with ⟨e, _, rfl⟩
        by_cases h : whKeyIs u m e = true
        · simp [h]
        · rw [if_neg h] at hkey
          exact absurd hkey h
  · intro hnone wd r f
    unfold update_watch_history
    rw [hnone]

/-- Witness for C10 at a concrete store: updating entry `(1, 2)` with a
`None` date keeps the stored date, and updating the absent key `(3, 4)`
changes nothing. -/
theorem C10_update_none_frame_witness :
    (update_watch_history [⟨1, 2, 10, some 3, true⟩] 1 2 none (some 5) none).map
        (fun e => e.watch_date) = [10]
    ∧ update_watch_history [⟨1, 2, 10, some 3, true⟩] 3 4 (some 7) (some 5)
        (some false) = [⟨1, 2, 10, some 3, true⟩] := by
  refine ⟨?_, ?_⟩
  · rw [(C10_update_none_frame [⟨1, 2, 10, some 3, true⟩] 1 2).1.1 (some 5) none]
    rfl
  · exact (C10_update_none_frame [⟨1, 2, 10, some 3, true⟩] 3 4).2.2 (by rfl)
      (some 7) (some 5) (some false)

/-! ## C4 -/

/-- Claim C4: every reconciliation mutation is evaluated per relation:
creates/deletes on the personal-list relation leave the watch-history
relation unchanged, creates/updates/deletes on the watch-history
relation leave the personal-list relation unchanged, and the bulk
delete-all-history operation removes exactly the given user's
`WatchHistoryEntry` rows while leaving the `MylistEntry` rows
unchanged. -/
theorem C4_per_relation_frame :
    (∀ db u m a b, ((handle_mylist_logic db u m a b).1).wh = db.wh)
    ∧ (∀ db u m, ((db_create_mylist db u m).1).wh = db.wh)
    ∧ (∀ db u m, (db_delete_mylist db u m).wh = db.wh)
    ∧ (∀ db u m a b now, ((handle_watch_history_logic db u m a b now).1).ml = db.ml)
    ∧ (∀ db u m d r f, ((db_create_watch_history db u m d r f).1).ml = db.ml)
    ∧ (∀ db u m wd r f, (db_update_watch_history db u m wd r f).ml = db.ml)
    ∧ (∀ db u m, (db_delete_watch_history db u m).ml = db.ml)
    ∧ (∀ db u, (db_delete_complete_watch_history db u).ml = db.ml)
    ∧ (∀ db u e, e ∈ (db_delete_complete_watch_history db u).wh
        ↔ (e ∈ db.wh ∧ e.user_id ≠ u)) := by
  refine ⟨?_, ?_, ?_, ?_, ?_, ?_, ?_, ?_, ?_⟩
  · intro db u m a b
    unfold handle_mylist_logic
    split
    · cases create_mylist db.ml u m <;> rfl
    · split <;> rfl
  · intro db u m
    unfold db_create_mylist
    cases create_mylist db.ml u m <;> rfl
  · intro db u m
    rfl
  · intro db u m a b now
    unfold handle_watch_history_logic
    split
    · cases create_watch_history db.wh u m now none false <;> rfl
    · split <;> rfl
  · intro db u m d r f
    unfold db_create_watch_history
    cases create_watch_history db.wh u m d r f <;> rfl
  · intro db u m wd r f
    rfl
  · intro db u m
    rfl
  · intro db u
    rfl
  · intro db u e
    simp [db_delete_complete_watch_history, delete_complete_watch_history,
      List.mem_filter]

/-! ## C8 -/

theorem update_with_user_data_eq (db : DB) (u : Nat) (rows : List MovieRow) :
    update_with_user_data db u rows
      = (db, rows.map fun r =>
          ⟨r, (read_watch_history db.wh u r.movie_id).isSome,
            (read_mylist db.ml u r.movie_id).isSome⟩) := by
  unfold update_with_user_data is_in_watchhistory is_in_mylist
  refine congrArg (Prod.mk db) ?_
  induction rows with
  | nil => rfl
  | cons r rs ih => simpa using ih

/-- Claim C8: for any non-empty movie set and any user, the user-state
overlay `update_with_user_data` is total: the store is untouched, the
output has exactly one annotated row per input movie (in order), and
each of the two flags reflects presence of the corresponding entry,
`false` when no entry exists. -/
theorem C8_overlay_total (db : DB) (u : Nat) (rows : List MovieRow)
    (_hne : rows ≠ []) :
    (update_with_user_data db u rows).1 = db
    ∧ ((update_with_user_data db u rows).2.map fun a => a.row) = rows
    ∧ ∀ a ∈ (update_with_user_data db u rows).2,
        a.in_watch_history = (read_watch_history db.wh u a.row.movie_id).isSome
        ∧ a.in_mylist = (read_mylist db.ml u a.row.movie_id).isSome := by
  rw [update_with_user_data_eq]
  refine ⟨rfl, ?_, ?_⟩
  · simp
    exact List.map_id rows
  · intro a ha
    rcases List.mem_map.mp ha with ⟨r, _, rfl⟩
    exact ⟨rfl, rfl⟩

/-- Witness for C8: the overlay of two concrete movies for user 5 over a
concrete store. -/
theorem C8_overlay_total_witness :
    (update_with_user_data ⟨[⟨5, 7, 10, some 4, true⟩], [⟨5, 9⟩]⟩ 5
        [⟨7, "a"⟩, ⟨9, "b"⟩]).1 = ⟨[⟨5, 7, 10, some 4, true⟩], [⟨5, 9⟩]⟩
    ∧ ((update_with_user_data ⟨[⟨5, 7, 10, some 4, true⟩], [⟨5, 9⟩]⟩ 5
        [⟨7, "a"⟩, ⟨9, "b"⟩]).2.map fun a => a.row) = [⟨7, "a"⟩, ⟨9, "b"⟩] :=
  ⟨(C8_overlay_total ⟨[⟨5, 7, 10, some 4, true⟩], [⟨5, 9⟩]⟩ 5
      [⟨7, "a"⟩, ⟨9, "b"⟩] (by decide)).1,
   (C8_overlay_total ⟨[⟨5, 7, 10, some 4, true⟩], [⟨5, 9⟩]⟩ 5
      [⟨7, "a"⟩, ⟨9, "b"⟩] (by decide)).2.1⟩

/-! ## C7 -/

/-- Counterexample to claim C7 as stated: an attempted duplicate create
for the existing key `(5, 9)` is not treated as update-or-ignore — in
both relations the insert fails at commit with a constraint violation
that surfaces to the caller (an update-or-ignore treatment would return
a successful result). -/
theorem C7_counterexample :
    create_mylist [⟨5, 9⟩] 5 9 = .error .duplicateKey
    ∧ create_watch_history [⟨5, 9, 3, none, true⟩] 5 9 4 none false
        = .error .duplicateKey := by
  exact ⟨rfl, rfl⟩

/-- Claim C7 (amended): an attempted duplicate create for an existing
`(user, movie)` key never inserts a second row — it fails with a
constraint violation surfaced to the caller (it is not converted into an
update or an ignore) — and a successful create preserves the
at-most-one-entry-per-key invariant. -/
theorem C7_duplicate_create (ml : MLTable) (wh : WHTable) (u m : Nat) :
    ((read_mylist ml u m).isSome → create_mylist ml u m = .error .duplicateKey)
    ∧ ((read_watch_history wh u m).isSome → ∀ d r f,
        create_watch_history wh u m d r f = .error .duplicateKey)
    ∧ (mlKeysNodup ml → ∀ ml', create_mylist ml u m = .ok ml' → mlKeysNodup ml')
    ∧ (whKeysNodup wh → ∀ d r f wh',
        create_watch_history wh u m d r f = .ok wh' → whKeysNodup wh') := by
  refine ⟨?_, ?_, ?_, ?_⟩
  · intro h
    unfold create_mylist
    rw [if_pos h]
  · intro h d r f
    unfold create_watch_history
    rw [if_pos h]
  · intro hnd ml' hok
    unfold create_mylist at hok
    by_cases h : (read_mylist ml u m).isSome
    · rw [if_pos h] at hok
      cases hok
    · rw [if_neg h] at hok
      cases hok
      have hnone : read_mylist ml u m = none := Option.not_isSome_iff_eq_none.mp h
      have hall := (read_mylist_eq_none_iff ml u m).mp hnone
      unfold mlKeysNodup at hnd ⊢
      rw [List.map_append]
      refine List.Nodup.append hnd (by simp) ?_
      intro k hk1 hk2
      rcases List.mem_map.mp hk1 with ⟨e, he, rfl⟩
      simp only [List.map_cons, List.map_nil, List.mem_singleton] at hk2
      have := hall e he
      simp only [mlKeyIs, Bool.and_eq_false_iff, beq_eq_false_iff_ne] at this
      rcases Prod.mk.injEq _ _ _ _ ▸ hk2 with h2
      have h3 := Prod.ext_iff.mp hk2
      rcases this with h4 | h4 <;> exact h4 (by simp [h3.1, h3.2] at *; tauto)
  · intro hnd d r f wh' hok
    unfold create_watch_history at hok
    by_cases h : (read_watch_history wh u m).isSome
    · rw [if_pos h] at hok
      cases hok
    · rw [if_neg h] at hok
      cases hok
      have hnone : read_watch_history wh u m = none := Option.not_isSome_iff_eq_none.mp h
      have hall := (read_watch_history_eq_none_iff wh u m).mp hnone
      unfold whKeysNodup at hnd ⊢
      rw [List.map_append]
      refine List.Nodup.append hnd (by simp) ?_
      intro k hk1 hk2
      rcases List.mem_map.mp hk1 with ⟨e, he, rfl⟩
      simp only [List.map_cons, List.map_nil, List.mem_singleton] at hk2
      have := hall e he
      simp only [whKeyIs, Bool.and_eq_false_iff, beq_eq_false_iff_ne] at this
      have h3 := Prod.ext_iff.mp hk2
      rcases this with h4 | h4 <;> exact h4 (by simp [h3.1, h3.2] at *; tauto)

/-- Witness for C7 at the concrete key `(5, 9)`: the duplicate creates
fail, and a fresh create keeps the key invariant. -/
theorem C7_duplicate_create_witness :
    create_mylist [⟨5, 9⟩] 5 8 = .ok [⟨5, 9⟩, ⟨5, 8⟩]
    ∧ mlKeysNodup [⟨5, 9⟩, ⟨5, 8⟩]
    ∧ create_watch_history [⟨5, 9, 3, none, true⟩] 5 9 4 none false
        = .error .duplicateKey := by
  refine ⟨by rfl, ?_, ?_⟩
  · exact (C7_duplicate_create [⟨5, 9⟩] [] 5 8).2.2.1
      (by unfold mlKeysNodup; decide) _ (by rfl)
  · exact (C7_duplicate_create [] [⟨5, 9, 3, none, true⟩] 5 9).2.1 (by decide)
      4 none false

/-! ## C6 -/

/-- Claim C6 is violated by the code (code bug): for user 5 with an
empty watch history and the single personal-list entry `(5, 9)`, the
consolidated view substitutes the epoch sentinel for the absent watch
date; ticking "In Watch History" with every widget left at its displayed
default then calls `create_watch_history` with
`watch_date or datetime.now()` where `watch_date` is the truthy sentinel
taken from the `st.date_input` default — so the display-only sentinel is
persisted as the stored watch date (the current time, here `999`, is not
used, and the user supplied no date). -/
theorem C6_sentinel_written_back :
    get_consolidated_dataframe ⟨[], [⟨5, 9⟩]⟩ 5 (fun _ => "m")
      = [⟨9, some false, true, some epochSentinel, some 0, none, "m"⟩]
    ∧ handle_watch_history_update ([] : WHTable) 5
        ⟨9, some false, true, some epochSentinel, some 0, none, "m"⟩
        true (some epochSentinel) 1 false 999
      = .ok ([⟨5, 9, epochSentinel, some 1, false⟩],
             [.create 5 9 epochSentinel (some 1) false])
    ∧ epochSentinel ≠ 999 := by
  exact ⟨by decide, by rfl, by decide⟩

/-! ## C2 -/

/-- Counterexample to claim C2 as stated: a present-to-present
reconciliation whose snapshot fields (date, rating, favorite) are all
unchanged still issues a storage mutation — `handle_watch_history_update`
has no field-change detection and calls `update_watch_history`
unconditionally whenever the entry stays present, so the storage-call
trace is `[update ...]` rather than empty (the stored state happens to
be unchanged). -/
theorem C2_counterexample :
    handle_watch_history_update [⟨1, 2, 10, some 3, true⟩] 1
        ⟨2, some true, false, some 10, some 3, some true, "n"⟩
        true (some 10) 3 true 99
      = .ok ([⟨1, 2, 10, some 3, true⟩],
             [.update 1 2 (some 10) (some 3) (some true)])
    ∧ handle_watch_history_update [⟨1, 2, 10, some 3, true⟩] 1
        ⟨2, some true, false, some 10, some 3, some true, "n"⟩
        true (some 10) 3 true 99
      ≠ .ok ([⟨1, 2, 10, some 3, true⟩], ([] : List WHAction)) := by
  constructor
  · rfl
  · intro h
    rw [show handle_watch_history_update [⟨1, 2, 10, some 3, true⟩] 1
        ⟨2, some true, false, some 10, some 3, some true, "n"⟩
        true (some 10) 3 true 99
      = .ok ([⟨1, 2, 10, some 3, true⟩],
             [.update 1 2 (some 10) (some 3) (some true)]) from rfl] at h
    cases h

/-- Claim C2 (amended): for every `(user, movie)` pair, reconciliation
of a storage-faithful previous snapshot against an edited snapshot
performs the transition table with one amendment: absent-to-present
creates the entry, defaulting the watch date to the current time when
none is supplied; present-to-absent deletes the entry;
present-to-present always issues exactly one update carrying all three
fields, whether or not any changed — when date, rating and favorite are
all unchanged that update overwrites the row with identical values, so
the stored state is unchanged (but a storage call is still made); and
absent-to-absent performs nothing. -/
theorem C2_reconciliation_transitions (wh : WHTable) (u : Nat) (row : ConsRow)
    (in_wh : Bool) (wd : Option Nat) (r : Int) (f : Bool) (now : Nat)
    (hfaith : row.in_watch_history
      = some (read_watch_history wh u row.movie_id).isSome)
    (hnd : whKeysNodup wh) :
    (read_watch_history wh u row.movie_id = none → in_wh = true →
      handle_watch_history_update wh u row in_wh wd r f now
        = .ok (wh ++ [⟨u, row.movie_id, wd.getD now, some r, f⟩],
               [.create u row.movie_id (wd.getD now) (some r) f]))
    ∧ ((read_watch_history wh u row.movie_id).isSome = true → in_wh = false →
      handle_watch_history_update wh u row in_wh wd r f now
        = .ok (delete_watch_history wh u row.movie_id, [.delete u row.movie_id]))
    ∧ ((read_watch_history wh u row.movie_id).isSome = true → in_wh = true →
      handle_watch_history_update wh u row in_wh wd r f now
        = .ok (update_watch_history wh u row.movie_id wd (some r) (some f),
               [.update u row.movie_id wd (some r) (some f)]))
    ∧ (∀ e, read_watch_history wh u row.movie_id = some e → in_wh = true →
        wd = some e.watch_date → some r = e.rating → f = e.is_favorite →
        update_watch_history wh u row.movie_id wd (some r) (some f) = wh)
    ∧ (read_watch_history wh u row.movie_id = none → in_wh = false →
      handle_watch_history_update wh u row in_wh wd r f now = .ok (wh, [])) := by
  refine ⟨?_, ?_, ?_, ?_, ?_⟩
  · intro hnone hin
    have hps : (read_watch_history wh u row.movie_id).isSome = false := by
      rw [hnone]; rfl
    simp only [handle_watch_history_update, hfaith, pyTruthy, hin, hps,
      create_watch_history]
    simp
  · intro hsome hin
    simp only [handle_watch_history_update, hfaith, pyTruthy, hin, hsome]
    simp
  · intro hsome hin
    simp only [handle_watch_history_update, hfaith, pyTruthy, hin, hsome]
    simp
  · intro e he hin hwd hr hf
    have hmem := List.mem_of_find?_eq_some he
    unfold update_watch_history
    rw [he]
    rw [show (wh.map fun e' =>
        if whKeyIs u row.movie_id e' = true then
          { e' with
            rating := if (some r).isSome then some r else e'.rating
            is_favorite := (some f).getD e'.is_favorite
            watch_date := wd.getD e'.watch_date }
        else e') = wh.map id from ?_, List.map_id]
    refine List.map_congr_left fun e' he' => ?_
    by_cases hk : whKeyIs u row.movie_id e' = true
    · have hke : whKeyIs u row.movie_id e = true := List.find?_some he
      have hinj := List.inj_on_of_nodup_map hnd
      have heq : e' = e := by
        refine hinj he' hmem ?_
        simp only [whKeyIs, Bool.and_eq_true, beq_iff_eq] at hk hke
        rw [hk.1, hk.2, hke.1, hke.2]
      subst heq
      rw [if_pos hk, hwd]
      simp only [Option.isSome_some, if_true, Option.getD_some]
      rw [hr, hf]
      rfl
    · rw [if_neg hk]
      rfl
  · intro hnone hin
    have hps : (read_watch_history wh u row.movie_id).isSome = false := by
      rw [hnone]; rfl
    simp only [handle_watch_history_update, hfaith, pyTruthy, hin, hps]
    simp

/-- Witness for C2 (amended) at concrete inputs: an absent-to-present
edit creates the row with the default date, and an unchanged
present-to-present edit leaves the stored table unchanged. -/
theorem C2_reconciliation_transitions_witness :
    handle_watch_history_update ([] : WHTable) 1
        ⟨2, some false, false, none, none, none, "n"⟩ true none 3 true 99
      = .ok ([⟨1, 2, 99, some 3, true⟩], [.create 1 2 99 (some 3) true])
    ∧ update_watch_history [⟨1, 2, 10, some 3, true⟩] 1 2 (some 10) (some 3)
        (some true) = [⟨1, 2, 10, some 3, true⟩] := by
  constructor
  · exact (C2_reconciliation_transitions [] 1
      ⟨2, some false, false, none, none, none, "n"⟩ true none 3 true 99
      (by rfl) (by unfold whKeysNodup; decide)).1 (by rfl) rfl
  · exact (C2_reconciliation_transitions [⟨1, 2, 10, some 3, true⟩] 1
      ⟨2, some true, false, some 10, some 3, some true, "n"⟩ true (some 10) 3
      true 99 (by rfl) (by unfold whKeysNodup; decide)).2.2.2.1
      ⟨1, 2, 10, some 3, true⟩ (by rfl) rfl rfl rfl rfl

/-! ## C5 -/

theorem execute_queries_eq_nil_iff (ms : Providers) (f : Filters) :
    execute_queries ms f = [] ↔ noActiveFacets f := by
  unfold execute_queries noActiveFacets
  constructor
  · intro h
    by_cases h1 : f.search_query = "" <;> by_cases h2 : f.selected_genres = [] <;>
      by_cases h3 : f.selected_keywords = "" <;>
      by_cases h4 : f.selected_persons = "" <;>
      by_cases h5 : f.selected_studios = "" <;>
      simp [h1, h2, h3, h4, h5] at h ⊢
  · rintro ⟨h1, h2, h3, h4, h5⟩
    simp [h1, h2, h3, h4, h5]

/-- Counterexample to claim C5 as stated: the "zero facets active"
outcome is not distinct from every "active facets matched nothing"
outcome — a search whose single active genre facet returns an empty
provider result lands in the very same silent no-display branch
(`result_sets and not result_sets[0].empty` fails) as a search with no
active facets. -/
theorem C5_counterexample :
    noActiveFacets ⟨"", [], "", "", ""⟩
    ∧ ¬ noActiveFacets ⟨"", ["Comedy"], "", "", ""⟩
    ∧ search_button_outcome
        ⟨fun _ => [], fun _ => [], fun _ => [], fun _ => [], fun _ => []⟩
        ⟨"", [], "", "", ""⟩
      = search_button_outcome
        ⟨fun _ => [], fun _ => [], fun _ => [], fun _ => [], fun _ => []⟩
        ⟨"", ["Comedy"], "", "", ""⟩ := by
  refine ⟨⟨rfl, rfl, rfl, rfl, rfl⟩, ?_, rfl⟩
  intro h
  exact absurd h.2.1 (by decide)

/-- Claim C5 (amended): when zero facets are active, `execute_queries`
consults no provider and the search result is empty (the silent
no-display outcome, never a catalog scan, whatever the providers
return); this outcome is distinct from the "No movies found" outcome
produced when the active facets all returned non-empty results that
intersect to nothing — but it coincides with the silent outcome
produced when the first active facet's provider returns an empty
result set. -/
theorem C5_zero_facets (ms : Providers) (f : Filters) (h : noActiveFacets f) :
    execute_queries ms f = []
    ∧ search_button_outcome ms f = .noDisplay
    ∧ (∀ ms' f', ¬ noActiveFacets f' →
        (∀ df ∈ execute_queries ms' f', df ≠ []) →
        intersect_results (execute_queries ms' f') = [] →
        search_button_outcome ms' f' = .noMatches
          ∧ search_button_outcome ms' f' ≠ search_button_outcome ms f) := by
  have hnil : execute_queries ms f = [] := (execute_queries_eq_nil_iff ms f).mpr h
  have hout : search_button_outcome ms f = .noDisplay := by
    unfold search_button_outcome
    rw [hnil]
  refine ⟨hnil, hout, ?_⟩
  intro ms' f' hact hne hint
  have hrs : execute_queries ms' f' ≠ [] := fun hc =>
    hact ((execute_queries_eq_nil_iff ms' f').mp hc)
  obtain ⟨first, rest, hcons⟩ := List.exists_cons_of_ne_nil hrs
  have hfirst : first.isEmpty = false := by
    have := hne first (hcons ▸ List.mem_cons_self first rest)
    exact List.isEmpty_eq_false.mpr this
  have hout' : search_button_outcome ms' f' = .noMatches := by
    unfold search_button_outcome
    rw [hcons] at hint
    rw [hcons]
    show (if first.isEmpty = true then SearchOutcome.noDisplay
      else
        let filtered := intersect_results (first :: rest)
        if filtered.isEmpty = true then SearchOutcome.noMatches
        else SearchOutcome.results filtered) = SearchOutcome.noMatches
    rw [hfirst]
    simp only [Bool.false_eq_true, if_false]
    rw [hint]
    rfl
  rw [hout, hout']
  exact ⟨rfl, fun hc => by cases hc⟩

/-- Witness for C5 over providers that would return a non-empty catalog
result: with no active facet, no query runs and the outcome is the
silent empty one. -/
theorem C5_zero_facets_witness :
    execute_queries
        ⟨fun _ => [⟨1, "a"⟩], fun _ => [⟨1, "a"⟩], fun _ => [⟨1, "a"⟩],
         fun _ => [⟨1, "a"⟩], fun _ => [⟨1, "a"⟩]⟩ ⟨"", [], "", "", ""⟩ = []
    ∧ search_button_outcome
        ⟨fun _ => [⟨1, "a"⟩], fun _ => [⟨1, "a"⟩], fun _ => [⟨1, "a"⟩],
         fun _ => [⟨1, "a"⟩], fun _ => [⟨1, "a"⟩]⟩ ⟨"", [], "", "", ""⟩
      = .noDisplay := by
  have h := C5_zero_facets
    ⟨fun _ => [⟨1, "a"⟩], fun _ => [⟨1, "a"⟩], fun _ => [⟨1, "a"⟩],
     fun _ => [⟨1, "a"⟩], fun _ => [⟨1, "a"⟩]⟩ ⟨"", [], "", "", ""⟩
    ⟨rfl, rfl, rfl, rfl, rfl⟩
  exact ⟨h.1, h.2.1⟩

/-! ## C3 -/

theorem mem_read_user_watch_history (wh : WHTable) (u : Nat) (e : WHEntry) :
    e ∈ read_user_watch_history wh u ↔ e ∈ wh ∧ e.user_id = u := by
  simp [read_user_watch_history, List.mem_filter]

theorem mem_read_user_mylist (ml : MLTable) (u : Nat) (e : MLEntry) :
    e ∈ read_user_mylist ml u ↔ e ∈ ml ∧ e.user_id = u := by
  simp [read_user_mylist, List.mem_filter]

/-- The shape of the consolidated dataframe in the branch where both the
watch-history rows and the mylist rows of the user are non-empty
(`my_lists.py` lines 189-193, then 207-208): the watch-history rows
followed by the mylist rows of movies absent from the watch history,
the latter with NaN watch-history columns and the sentinel date. -/
theorem get_consolidated_dataframe_both (db : DB) (u : Nat) (names : Nat → String)
    (hwh : read_user_watch_history db.wh u ≠ [])
    (hml : read_user_mylist db.ml u ≠ []) :
    get_consolidated_dataframe db u names
      = (read_user_watch_history db.wh u).map (fun e =>
          ⟨e.movie_id, some true,
            ((read_user_mylist db.ml u).map fun e' => e'.movie_id).contains e.movie_id,
            some e.watch_date, e.rating, some e.is_favorite, names e.movie_id⟩)
        ++ ((read_user_mylist db.ml u).filter fun e =>
              !((read_user_watch_history db.wh u).map fun e' => e'.movie_id).contains
                e.movie_id).map
            (fun e => ⟨e.movie_id, none,
              ((read_user_mylist db.ml u).map fun e' => e'.movie_id).contains e.movie_id,
              some epochSentinel, none, none, names e.movie_id⟩) := by
  have h1 : (read_user_watch_history db.wh u).isEmpty = false :=
    List.isEmpty_eq_false.mpr hwh
  have h2 : (read_user_mylist db.ml u).isEmpty = false :=
    List.isEmpty_eq_false.mpr hml
  unfold get_consolidated_dataframe
  simp only [h1, h2, Bool.not_false, Bool.and_self, if_true, List.map_append,
    List.map_map]
  rfl

theorem map_movie_id_map {α : Type} (l : List α) (f : α → ConsRow) (g : α → Nat)
    (h : ∀ a, (f a).movie_id = g a) :
    ((l.map f).map fun r => r.movie_id) = l.map g := by
  rw [List.map_map]
  exact List.map_congr_left fun a _ => h a

/-- Counterexample to claim C3 as stated: user 5 has the non-empty watch
history `{(5, 7)}` and the non-empty personal list `{(5, 7), (5, 2)}`;
in the consolidated view the row of movie 2 (present only in the
personal list) carries NaN — not `false` — for `in_watch_history`, NaN —
not `0` — for `rating`, and the sentinel rather than an absent watch
date: `pd.concat` leaves the watch-history columns of appended
mylist-only rows as NaN in this branch. -/
theorem C3_counterexample :
    get_consolidated_dataframe ⟨[⟨5, 7, 10, some 4, true⟩], [⟨5, 7⟩, ⟨5, 2⟩]⟩ 5
        (fun _ => "m")
      = [⟨7, some true, true, some 10, some 4, some true, "m"⟩,
         ⟨2, none, true, some epochSentinel, none, none, "m"⟩]
    ∧ (none : Option Bool) ≠ some false
    ∧ (none : Option Int) ≠ some 0 := by
  exact ⟨by decide, by decide, by decide⟩

/-- Claim C3 (amended): for every user whose watch-history set and
personal-list set are both non-empty, the consolidated view has one row
per distinct movie identifier of the union; a movie present in both
sources appears once with both flags true and its watch-history date,
rating and favorite preserved; a movie present only in watch history
gets `in_mylist = false`; but a movie present only in the personal list
gets NaN (absent) `in_watch_history`, NaN rating and NaN favorite — not
`false` and `0` — and its watch date displayed as the epoch sentinel. -/
theorem C3_consolidated_union (db : DB) (u : Nat) (names : Nat → String)
    (hwh : read_user_watch_history db.wh u ≠ [])
    (hml : read_user_mylist db.ml u ≠ [])
    (hndw : whKeysNodup db.wh) (hndm : mlKeysNodup db.ml) :
    ((get_consolidated_dataframe db u names).map fun r => r.movie_id).Nodup
    ∧ (∀ x, (∃ r ∈ get_consolidated_dataframe db u names, r.movie_id = x)
        ↔ ((∃ e ∈ db.wh, e.user_id = u ∧ e.movie_id = x)
            ∨ (∃ e ∈ db.ml, e.user_id = u ∧ e.movie_id = x)))
    ∧ (∀ e ∈ db.wh, e.user_id = u →
        (∃ e' ∈ db.ml, e'.user_id = u ∧ e'.movie_id = e.movie_id) →
        (⟨e.movie_id, some true, true, some e.watch_date, e.rating,
          some e.is_favorite, names e.movie_id⟩ : ConsRow)
          ∈ get_consolidated_dataframe db u names)
    ∧ (∀ e ∈ db.wh, e.user_id = u →
        (¬∃ e' ∈ db.ml, e'.user_id = u ∧ e'.movie_id = e.movie_id) →
        (⟨e.movie_id, some true, false, some e.watch_date, e.rating,
          some e.is_favorite, names e.movie_id⟩ : ConsRow)
          ∈ get_consolidated_dataframe db u names)
    ∧ (∀ e ∈ db.ml, e.user_id = u →
        (¬∃ e' ∈ db.wh, e'.user_id = u ∧ e'.movie_id = e.movie_id) →
        (⟨e.movie_id, none, true, some epochSentinel, none, none,
          names e.movie_id⟩ : ConsRow)
          ∈ get_consolidated_dataframe db u names) := by
  rw [get_consolidated_dataframe_both db u names hwh hml]
  have hndw0 : (db.wh.map fun e => (e.user_id, e.movie_id)).Nodup := hndw
  have hndm0 : (db.ml.map fun e => (e.user_id, e.movie_id)).Nodup := hndm
  have hmlIds : ∀ x : Nat,
      (((read_user_mylist db.ml u).map fun e' => e'.movie_id).contains x = true)
        ↔ (∃ e ∈ db.ml, e.user_id = u ∧ e.movie_id = x) := by
    intro x
    rw [List.elem_iff]
    simp only [List.mem_map]
    constructor
    · rintro ⟨e, he, rfl⟩
      have := (mem_read_user_mylist db.ml u e).mp he
      exact ⟨e, this.1, this.2, rfl⟩
    · rintro ⟨e, he, hu, rfl⟩
      exact ⟨e, (mem_read_user_mylist db.ml u e).mpr ⟨he, hu⟩, rfl⟩
  have hwhIds : ∀ x : Nat,
      (((read_user_watch_history db.wh u).map fun e' => e'.movie_id).contains x = true)
        ↔ (∃ e ∈ db.wh, e.user_id = u ∧ e.movie_id = x) := by
    intro x
    rw [List.elem_iff]
    simp only [List.mem_map]
    constructor
    · rintro ⟨e, he, rfl⟩
      have := (mem_read_user_watch_history db.wh u e).mp he
      exact ⟨e, this.1, this.2, rfl⟩
    · rintro ⟨e, he, hu, rfl⟩
      exact ⟨e, (mem_read_user_watch_history db.wh u e).mpr ⟨he, hu⟩, rfl⟩
  refine ⟨?_, ?_, ?_, ?_, ?_⟩
  · -- the id column has no duplicates
    rw [List.map_append,
      map_movie_id_map (read_user_watch_history db.wh u) _ (fun e => e.movie_id)
        (fun a => rfl),
      map_movie_id_map _ _ (fun e => e.movie_id) (fun a => rfl)]
    have hwhN : (read_user_watch_history db.wh u).Nodup :=
      (List.Nodup.of_map _ hndw0).filter _
    have hmlN : (read_user_mylist db.ml u).Nodup :=
      (List.Nodup.of_map _ hndm0).filter _
    have hwnod : ((read_user_watch_history db.wh u).map fun e => e.movie_id).Nodup := by
      refine hwhN.map_on ?_
      intro e1 h1 e2 h2 hid
      have m1 := (mem_read_user_watch_history db.wh u e1).mp h1
      have m2 := (mem_read_user_watch_history db.wh u e2).mp h2
      exact List.inj_on_of_nodup_map hndw0 m1.1 m2.1 (by rw [m1.2, m2.2, hid])
    have hmnodBase : ((read_user_mylist db.ml u).map fun e => e.movie_id).Nodup := by
      refine hmlN.map_on ?_
      intro e1 h1 e2 h2 hid
      have m1 := (mem_read_user_mylist db.ml u e1).mp h1
      have m2 := (mem_read_user_mylist db.ml u e2).mp h2
      exact List.inj_on_of_nodup_map hndm0 m1.1 m2.1 (by rw [m1.2, m2.2, hid])
    have hmnod : (((read_user_mylist db.ml u).filter fun e =>
        !((read_user_watch_history db.wh u).map fun e' => e'.movie_id).contains
          e.movie_id).map fun e => e.movie_id).Nodup :=
      hmnodBase.sublist ((List.filter_sublist _).map _)
    refine List.Nodup.append hwnod hmnod ?_
    intro x hx1 hx2
    rcases List.mem_map.mp hx2 with ⟨e, he, rfl⟩
    have hf := (List.mem_filter.mp he).2
    simp only [Bool.not_eq_true'] at hf
    simp at hf
    rcases List.mem_map.mp hx1 with ⟨y, hy, hyid⟩
    exact hf y hy hyid
  · -- coverage of exactly the union of the two id sets
    intro x
    constructor
    · rintro ⟨r, hr, rfl⟩
      rcases List.mem_append.mp hr with hl | hl
      · rcases List.mem_map.mp hl with ⟨e, he, rfl⟩
        have := (mem_read_user_watch_history db.wh u e).mp he
        exact Or.inl ⟨e, this.1, this.2, rfl⟩
      · rcases List.mem_map.mp hl with ⟨e, he, rfl⟩
        have := (mem_read_user_mylist db.ml u e).mp (List.mem_filter.mp he).1
        exact Or.inr ⟨e, this.1, this.2, rfl⟩
    · rintro (⟨e, he, hu, rfl⟩ | ⟨e, he, hu, rfl⟩)
      · refine ⟨_, List.mem_append.mpr (Or.inl (List.mem_map.mpr
          ⟨e, (mem_read_user_watch_history db.wh u e).mpr ⟨he, hu⟩, rfl⟩)), rfl⟩
      · by_cases hin : ((read_user_watch_history db.wh u).map fun e' =>
            e'.movie_id).contains e.movie_id = true
        · rw [List.elem_iff] at hin
          rcases List.mem_map.mp hin with ⟨e', he', heq⟩
          refine ⟨_, List.mem_append.mpr (Or.inl (List.mem_map.mpr
            ⟨e', he', rfl⟩)), heq⟩
        · refine ⟨_, List.mem_append.mpr (Or.inr (List.mem_map.mpr
            ⟨e, List.mem_filter.mpr
              ⟨(mem_read_user_mylist db.ml u e).mpr ⟨he, hu⟩, by simpa using hin⟩,
             rfl⟩)), rfl⟩
  · -- both sources: one row, both flags true, fields preserved
    intro e he hu hml'
    have hc : ((read_user_mylist db.ml u).map fun e' => e'.movie_id).contains
        e.movie_id = true := (hmlIds e.movie_id).mpr hml'
    refine List.mem_append.mpr (Or.inl (List.mem_map.mpr ⟨e,
      (mem_read_user_watch_history db.wh u e).mpr ⟨he, hu⟩, ?_⟩))
    simp only [hc]
  · -- watch-history only: in_mylist is false
    intro e he hu hml'
    have hc : ((read_user_mylist db.ml u).map fun e' => e'.movie_id).contains
        e.movie_id = false := by
      rcases hc' : ((read_user_mylist db.ml u).map fun e' => e'.movie_id).contains
          e.movie_id with _ | _
      · exact hc'
      · exact absurd ((hmlIds e.movie_id).mp hc') hml'
    refine List.mem_append.mpr (Or.inl (List.mem_map.mpr ⟨e,
      (mem_read_user_watch_history db.wh u e).mpr ⟨he, hu⟩, ?_⟩))
    simp only [hc]
  · -- personal-list only: NaN watch-history columns, sentinel date
    intro e he hu hwh'
    have hmlmem : e ∈ read_user_mylist db.ml u :=
      (mem_read_user_mylist db.ml u e).mpr ⟨he, hu⟩
    have hnotin : ((read_user_watch_history db.wh u).map fun e' =>
        e'.movie_id).contains e.movie_id = false := by
      rcases hc' : ((read_user_watch_history db.wh u).map fun e' => e'.movie_id).contains
          e.movie_id with _ | _
      · exact hc'
      · exact absurd ((hwhIds e.movie_id).mp hc') hwh'
    have hc : ((read_user_mylist db.ml u).map fun e' => e'.movie_id).contains
        e.movie_id = true :=
      (hmlIds e.movie_id).mpr ⟨e, he, hu, rfl⟩
    refine List.mem_append.mpr (Or.inr (List.mem_map.mpr ⟨e,
      List.mem_filter.mpr ⟨hmlmem, by rw [Bool.not_eq_true']; exact hnotin⟩, ?_⟩))
    simp only [hc]

/-- Witness for C3 (amended) at the concrete store of the
counterexample: both sources non-empty, the id column is duplicate-free
and the watch-history row of movie 7 appears with both flags true. -/
theorem C3_consolidated_union_witness :
    ((get_consolidated_dataframe ⟨[⟨5, 7, 10, some 4, true⟩], [⟨5, 7⟩, ⟨5, 2⟩]⟩ 5
        (fun _ => "m")).map fun r => r.movie_id).Nodup
    ∧ (⟨7, some true, true, some 10, some 4, some true, "m"⟩ : ConsRow)
        ∈ get_consolidated_dataframe ⟨[⟨5, 7, 10, some 4, true⟩], [⟨5, 7⟩, ⟨5, 2⟩]⟩ 5
            (fun _ => "m") := by
  have h := C3_consolidated_union ⟨[⟨5, 7, 10, some 4, true⟩], [⟨5, 7⟩, ⟨5, 2⟩]⟩ 5
    (fun _ => "m") (by decide) (by decide)
    (by unfold whKeysNodup; decide) (by unfold mlKeysNodup; decide)
  refine ⟨h.1, h.2.2.1 ⟨5, 7, 10, some 4, true⟩ (by decide) rfl
    ⟨⟨5, 7⟩, by decide, rfl, rfl⟩⟩

/-! ## C1 -/

theorem mem_idSet (df : List MovieRow) (x : Nat) :
    x ∈ idSet df ↔ ∃ r ∈ df, r.movie_id = x := by
  simp [idSet, List.mem_toFinset, List.mem_map]

theorem mem_idSet_cons (r : MovieRow) (rs : List MovieRow) (x : Nat) :
    x ∈ idSet (r :: rs) ↔ x = r.movie_id ∨ x ∈ idSet rs := by
  simp only [mem_idSet, List.mem_cons]
  constructor
  · rintro ⟨y, rfl | hy, rfl⟩
    · exact Or.inl rfl
    · exact Or.inr ⟨y, hy, rfl⟩
  · rintro (rfl | ⟨y, hy, rfl⟩)
    · exact ⟨r, Or.inl rfl, rfl⟩
    · exact ⟨y, Or.inr hy, rfl⟩

theorem not_mem_idSet_nil (x : Nat) : x ∉ idSet [] := by
  simp [idSet]

theorem foldCommon_eq_none_iff (rest : List (List MovieRow)) :
    ∀ c, foldCommon c rest = none ↔ ∃ df ∈ rest, df = [] := by
  induction rest with
  | nil => intro c; simp [foldCommon]
  | cons df rest ih =>
      intro c
      rw [foldCommon]
      cases h : df.isEmpty with
      | true =>
          simp only [if_true]
          constructor
          · intro _
            exact ⟨df, List.mem_cons_self df rest, List.isEmpty_iff.mp h⟩
          · intro _; trivial
      | false =>
          simp only [Bool.false_eq_true, if_false, ih]
          constructor
          · rintro ⟨d, hd, rfl⟩
            exact ⟨[], List.mem_cons_of_mem df hd, rfl⟩
          · rintro ⟨d, hd, rfl⟩
            rcases List.mem_cons.mp hd with rfl | hd
            · exact absurd h (by simp)
            · exact ⟨[], hd, rfl⟩

theorem foldCommon_some_mem (rest : List (List MovieRow)) :
    ∀ c s, foldCommon c rest = some s →
      ∀ x, x ∈ s ↔ (x ∈ c ∧ ∀ df ∈ rest, x ∈ idSet df) := by
  induction rest with
  | nil =>
      intro c s hs x
      rw [foldCommon] at hs
      cases hs
      simp
  | cons df rest ih =>
      intro c s hs x
      rw [foldCommon] at hs
      cases h : df.isEmpty with
      | true => rw [h, if_pos rfl] at hs; cases hs
      | false =>
          rw [h] at hs
          simp only [Bool.false_eq_true, if_false] at hs
          rw [ih (c ∩ idSet df) s hs x]
          simp only [Finset.mem_inter, List.mem_cons]
          constructor
          · rintro ⟨⟨hc, hdf⟩, hrest⟩
            exact ⟨hc, fun d hd => by rcases hd with rfl | hd
                                      exacts [hdf, hrest d hd]⟩
          · rintro ⟨hc, hall⟩
            exact ⟨⟨hc, hall df (Or.inl rfl)⟩, fun d hd => hall d (Or.inr hd)⟩

theorem mem_idSet_dedupAux (l : List MovieRow) :
    ∀ (seen : List Nat) (x : Nat),
      x ∈ idSet (dedupByMovieIdAux seen l) ↔ (x ∈ idSet l ∧ x ∉ seen) := by
  induction l with
  | nil =>
      intro seen x
      simp [dedupByMovieIdAux, idSet]
  | cons r rs ih =>
      intro seen x
      rw [dedupByMovieIdAux]
      by_cases h : seen.contains r.movie_id = true
      · rw [if_pos h, ih seen x, mem_idSet_cons]
        rw [List.elem_iff] at h
        constructor
        · rintro ⟨hrs, hns⟩
          exact ⟨Or.inr hrs, hns⟩
        · rintro ⟨rfl | hrs, hns⟩
          · exact absurd h hns
          · exact ⟨hrs, hns⟩
      · rw [if_neg h]
        have hns : r.movie_id ∉ seen := fun hm => h (List.elem_iff.mpr hm)
        rw [mem_idSet_cons, ih (r.movie_id :: seen) x, mem_idSet_cons]
        constructor
        · rintro (rfl | ⟨hrs, hnotin⟩)
          · exact ⟨Or.inl rfl, hns⟩
          · exact ⟨Or.inr hrs,
              fun hm => hnotin (List.mem_cons_of_mem _ hm)⟩
        · rintro ⟨rfl | hrs, hseen⟩
          · exact Or.inl rfl
          · by_cases hx : x = r.movie_id
            · exact Or.inl hx
            · exact Or.inr ⟨hrs, fun hm => by
                rcases List.mem_cons.mp hm with h' | h'
                exacts [hx h', hseen h']⟩

theorem mem_idSet_filter_common (df : List MovieRow) (common : Finset Nat) (x : Nat) :
    x ∈ idSet (df.filter fun r => r.movie_id ∈ common)
      ↔ (x ∈ idSet df ∧ x ∈ common) := by
  simp only [mem_idSet, List.mem_filter, decide_eq_true_eq]
  constructor
  · rintro ⟨r, ⟨hr, hc⟩, rfl⟩
    exact ⟨⟨r, hr, rfl⟩, hc⟩
  · rintro ⟨⟨r, hr, rfl⟩, hc⟩
    exact ⟨r, ⟨hr, hc⟩, rfl⟩

/-- Membership characterization of `intersect_results`: a movie
identifier is in the combined result exactly when it is in every
provider result set (in particular, if one set is empty nothing
survives). -/
theorem mem_idSet_intersect (first : List MovieRow) (rest : List (List MovieRow))
    (x : Nat) :
    x ∈ idSet (intersect_results (first :: rest))
      ↔ ∀ df ∈ first :: rest, x ∈ idSet df := by
  rw [intersect_results]
  by_cases h1 : first.isEmpty = true
  · rw [if_pos h1]
    have he : first = [] := List.isEmpty_iff.mp h1
    constructor
    · intro hx
      exact absurd hx (not_mem_idSet_nil x)
    · intro hall
      have := hall first (List.mem_cons_self first rest)
      rw [he] at this
      exact absurd this (not_mem_idSet_nil x)
  · rw [if_neg h1]
    cases hf : foldCommon (idSet first) rest with
    | none =>
        rcases (foldCommon_eq_none_iff rest (idSet first)).mp hf with ⟨df, hdf, rfl⟩
        constructor
        · intro hx
          exact absurd hx (not_mem_idSet_nil x)
        · intro hall
          exact absurd (hall [] (List.mem_cons_of_mem first hdf))
            (not_mem_idSet_nil x)
    | some s =>
        have hs := foldCommon_some_mem rest (idSet first) s hf
        show x ∈ idSet (dedupByMovieIdAux [] _) ↔ _
        rw [mem_idSet_dedupAux]
        simp only [List.not_mem_nil, not_false_iff, and_true]
        constructor
        · intro hx
          rw [mem_idSet] at hx
          rcases hx with ⟨r, hr, rfl⟩
          rcases List.mem_flatten.mp hr with ⟨dl, hdl, hrdl⟩
          rcases List.mem_map.mp hdl with ⟨df, _, rfl⟩
          have hc : r.movie_id ∈ s := by
            have := (List.mem_filter.mp hrdl).2
            simpa using this
          have := (hs r.movie_id).mp hc
          intro d hd
          rcases List.mem_cons.mp hd with rfl | hd
          · exact this.1
          · exact this.2 d hd
        · intro hall
          have hc : x ∈ s := (hs x).mpr
            ⟨hall first (List.mem_cons_self first rest),
             fun d hd => hall d (List.mem_cons_of_mem first hd)⟩
          rw [mem_idSet]
          rcases (mem_idSet first x).mp (hall first (List.mem_cons_self first rest))
            with ⟨r, hr, rfl⟩
          refine ⟨r, List.mem_flatten.mpr
            ⟨first.filter fun r' => r'.movie_id ∈ s,
             List.mem_map.mpr ⟨first, List.mem_cons_self first rest, rfl⟩,
             List.mem_filter.mpr ⟨hr, by simpa using hc⟩⟩, rfl⟩

/-- Claim C1: for result sets that are all non-empty, the combined
search result's movie-identifier set is exactly the intersection of the
facet results' movie-identifier sets (stated as the membership
characterization); the identifier set is independent of the order in
which the facet results are supplied; if any facet result is empty the
whole combined result is the empty frame; and on genre results
`{1, 2, 3}` and person results `{2, 3, 4}` the combined identifier set
is `{2, 3}`. -/
theorem C1_search_intersection (sets : List (List MovieRow)) (hne : sets ≠ []) :
    (∀ x, x ∈ idSet (intersect_results sets) ↔ ∀ df ∈ sets, x ∈ idSet df)
    ∧ (∀ sets', sets.Perm sets' →
        idSet (intersect_results sets) = idSet (intersect_results sets'))
    ∧ (∀ df ∈ sets, df = [] → intersect_results sets = [])
    ∧ idSet (intersect_results
        [[⟨1, "m1"⟩, ⟨2, "m2"⟩, ⟨3, "m3"⟩], [⟨2, "m2"⟩, ⟨3, "m3"⟩, ⟨4, "m4"⟩]])
      = {2, 3} := by
  obtain ⟨first, rest, rfl⟩ := List.exists_cons_of_ne_nil hne
  refine ⟨mem_idSet_intersect first rest, ?_, ?_, by decide⟩
  · intro sets' hp
    have hne' : sets' ≠ [] := by
      intro hc
      rw [hc] at hp
      exact hne hp.eq_nil
    obtain ⟨first', rest', rfl⟩ := List.exists_cons_of_ne_nil hne'
    ext x
    rw [mem_idSet_intersect, mem_idSet_intersect]
    constructor
    · intro hall df hdf
      exact hall df (hp.mem_iff.mpr hdf)
    · intro hall df hdf
      exact hall df (hp.mem_iff.mp hdf)
  · intro df hdf hdfe
    rw [intersect_results]
    rcases List.mem_cons.mp hdf with rfl | hdf
    · rw [if_pos (List.isEmpty_iff.mpr hdfe)]
    · by_cases h1 : first.isEmpty = true
      · rw [if_pos h1]
      · rw [if_neg h1]
        have : foldCommon (idSet first) rest = none :=
          (foldCommon_eq_none_iff rest (idSet first)).mpr ⟨df, hdf, hdfe⟩
        rw [this]

/-- Witness for C1 at the concrete genre/person scenario: supplied in
either order, the combined identifier set is `{2, 3}`. -/
theorem C1_search_intersection_witness :
    idSet (intersect_results
        [[⟨1, "m1"⟩, ⟨2, "m2"⟩, ⟨3, "m3"⟩], [⟨2, "m2"⟩, ⟨3, "m3"⟩, ⟨4, "m4"⟩]])
      = {2, 3}
    ∧ idSet (intersect_results
        [[⟨1, "m1"⟩, ⟨2, "m2"⟩, ⟨3, "m3"⟩], [⟨2, "m2"⟩, ⟨3, "m3"⟩, ⟨4, "m4"⟩]])
      = idSet (intersect_results
        [[⟨2, "m2"⟩, ⟨3, "m3"⟩, ⟨4, "m4"⟩], [⟨1, "m1"⟩, ⟨2, "m2"⟩, ⟨3, "m3"⟩]]) := by
  refine ⟨(C1_search_intersection
      [[⟨1, "m1"⟩, ⟨2, "m2"⟩, ⟨3, "m3"⟩], [⟨2, "m2"⟩, ⟨3, "m3"⟩, ⟨4, "m4"⟩]]
      (by decide)).2.2.2, ?_⟩
  exact (C1_search_intersection
      [[⟨1, "m1"⟩, ⟨2, "m2"⟩, ⟨3, "m3"⟩], [⟨2, "m2"⟩, ⟨3, "m3"⟩, ⟨4, "m4"⟩]]
      (by decide)).2.1
    [[⟨2, "m2"⟩, ⟨3, "m3"⟩, ⟨4, "m4"⟩], [⟨1, "m1"⟩, ⟨2, "m2"⟩, ⟨3, "m3"⟩]]
    (List.Perm.swap _ _ _)

/-! ## C9 -/

theorem read_watch_history_append_self (wh : WHTable) (u m d : Nat)
    (r : Option Int) (f : Bool) (h : read_watch_history wh u m = none) :
    read_watch_history (wh ++ [⟨u, m, d, r, f⟩]) u m = some ⟨u, m, d, r, f⟩ := by
  unfold read_watch_history at h ⊢
  rw [List.find?_append, h]
  simp [List.find?_cons, whKeyIs]

theorem read_mylist_append_self (ml : MLTable) (u m : Nat)
    (h : read_mylist ml u m = none) :
    read_mylist (ml ++ [⟨u, m⟩]) u m = some ⟨u, m⟩ := by
  unfold read_mylist at h ⊢
  rw [List.find?_append, h]
  simp [List.find?_cons, mlKeyIs]

theorem read_watch_history_delete_self (wh : WHTable) (u m : Nat) :
    read_watch_history (delete_watch_history wh u m) u m = none := by
  unfold delete_watch_history
  cases h : read_watch_history wh u m with
  | none => exact h
  | some e =>
      rw [read_watch_history_eq_none_iff]
      intro e' he'
      have h2 := (List.mem_filter.mp he').2
      simpa [Bool.not_eq_true'] using h2

theorem read_mylist_delete_self (ml : MLTable) (u m : Nat) :
    read_mylist (delete_mylist ml u m) u m = none := by
  unfold delete_mylist
  cases h : read_mylist ml u m with
  | none => exact h
  | some e =>
      rw [read_mylist_eq_none_iff]
      intro e' he'
      have h2 := (List.mem_filter.mp he').2
      simpa [Bool.not_eq_true'] using h2

theorem update_watch_history_of_isSome (wh : WHTable) (u m : Nat)
    (wd : Option Nat) (r : Option Int) (f : Option Bool)
    (h : (read_watch_history wh u m).isSome = true) :
    update_watch_history wh u m wd r f
      = wh.map fun e =>
          if whKeyIs u m e then
            { e with
              rating := if r.isSome then r else e.rating
              is_favorite := f.getD e.is_favorite
              watch_date := wd.getD e.watch_date }
          else e := by
  obtain ⟨e, he⟩ := Option.isSome_iff_exists.mp h
  unfold update_watch_history
  rw [he]

theorem read_update_isSome (wh : WHTable) (u m : Nat) (wd : Option Nat)
    (r : Option Int) (f : Option Bool) :
    (read_watch_history (update_watch_history wh u m wd r f) u m).isSome
      = (read_watch_history wh u m).isSome := by
  cases h : (read_watch_history wh u m).isSome with
  | false =>
      have hnone := Option.not_isSome_iff_eq_none.mp (by rw [h]; exact fun hc => by cases hc)
      unfold update_watch_history
      rw [hnone]
      rw [hnone]
      rfl
  | true =>
      rw [update_watch_history_of_isSome wh u m wd r f h]
      obtain ⟨e, he⟩ := Option.isSome_iff_exists.mp h
      have hke : whKeyIs u m e = true := List.find?_some he
      have hmem := List.mem_of_find?_eq_some he
      rw [Bool.eq_iff_iff]
      simp only [iff_true]
      rw [read_watch_history_isSome_iff]
      refine ⟨_, List.mem_map.mpr ⟨e, hmem, rfl⟩, ?_⟩
      rw [if_pos hke]
      exact hke

theorem update_watch_history_idem (wh : WHTable) (u m : Nat) (wd : Option Nat)
    (r : Option Int) (f : Option Bool) :
    update_watch_history (update_watch_history wh u m wd r f) u m wd r f
      = update_watch_history wh u m wd r f := by
  cases h : (read_watch_history wh u m).isSome with
  | false =>
      have hnone := Option.not_isSome_iff_eq_none.mp (by rw [h]; exact fun hc => by cases hc)
      have hinner : update_watch_history wh u m wd r f = wh := by
        unfold update_watch_history
        rw [hnone]
      rw [hinner, hinner]
  | true =>
      have houter : (read_watch_history (update_watch_history wh u m wd r f) u m).isSome
          = true := by rw [read_update_isSome, h]
      rw [update_watch_history_of_isSome _ u m wd r f houter,
        update_watch_history_of_isSome wh u m wd r f h, List.map_map]
      refine List.map_congr_left fun a _ => ?_
      by_cases hk : whKeyIs u m a = true
      · have hk2 : whKeyIs u m
            ({ a with
              rating := if r.isSome then r else a.rating
              is_favorite := f.getD a.is_favorite
              watch_date := wd.getD a.watch_date }) = true := hk
        simp only [Function.comp, hk, if_pos, hk2]
        cases r <;> cases f <;> cases wd <;> simp
      · simp [Function.comp, hk]

theorem update_after_create (wh : WHTable) (u m : Nat) (wd : Option Nat)
    (r : Int) (f : Bool) (now : Nat) (h : read_watch_history wh u m = none) :
    update_watch_history (wh ++ [⟨u, m, wd.getD now, some r, f⟩]) u m wd
        (some r) (some f)
      = wh ++ [⟨u, m, wd.getD now, some r, f⟩] := by
  have hr := read_watch_history_append_self wh u m (wd.getD now) (some r) f h
  have hso : (read_watch_history (wh ++ [⟨u, m, wd.getD now, some r, f⟩]) u m).isSome
      = true := by rw [hr]; rfl
  rw [update_watch_history_of_isSome _ u m wd (some r) (some f) hso,
    List.map_append]
  have hall := (read_watch_history_eq_none_iff wh u m).mp h
  congr 1
  · refine (List.map_congr_left fun a ha => ?_).trans (List.map_id wh)
    have hf : ¬ whKeyIs u m a = true := by simp [hall a ha]
    rw [if_neg hf]
    rfl
  · cases wd <;> simp [whKeyIs]

/-- The result of one application of an edited snapshot, made explicit:
each relation's new table and issued storage calls depend only on the
previous presence of the `(user, movie)` key and the edited flag. -/
theorem apply_edited_snapshot_spec (db : DB) (u m : Nat) (e : EditedSnapshot)
    (now : Nat) :
    apply_edited_snapshot db u m e now
      = .ok
        (⟨(if e.in_watch_history then
             (if (read_watch_history db.wh u m).isSome then
               update_watch_history db.wh u m e.watch_date (some e.rating)
                 (some e.is_favorite)
             else db.wh ++ [⟨u, m, e.watch_date.getD now, some e.rating,
               e.is_favorite⟩])
           else
             (if (read_watch_history db.wh u m).isSome then
               delete_watch_history db.wh u m
             else db.wh)),
          (if e.in_mylist then
             (if (read_mylist db.ml u m).isSome then db.ml else db.ml ++ [⟨u, m⟩])
           else
             (if (read_mylist db.ml u m).isSome then delete_mylist db.ml u m
              else db.ml))⟩,
         (if e.in_watch_history then
            (if (read_watch_history db.wh u m).isSome then
              [WHAction.update u m e.watch_date (some e.rating)
                (some e.is_favorite)]
            else [WHAction.create u m (e.watch_date.getD now) (some e.rating)
              e.is_favorite])
          else
            (if (read_watch_history db.wh u m).isSome then [WHAction.delete u m]
             else [])),
         (if e.in_mylist then
            (if (read_mylist db.ml u m).isSome then [] else [MLAction.create u m])
          else
            (if (read_mylist db.ml u m).isSome then [MLAction.delete u m]
             else []))) := by
  unfold apply_edited_snapshot handle_watch_history_update handle_mylist_update
  cases hew : e.in_watch_history <;> cases hem : e.in_mylist <;>
    cases hwh0 : (read_watch_history db.wh u m).isSome <;>
    cases hml0 : (read_mylist db.ml u m).isSome <;>
      simp [pyTruthy, hwh0, hml0, create_watch_history, create_mylist]

theorem read_after_first_wh (wh : WHTable) (u m : Nat) (ew : Bool)
    (wd : Option Nat) (r : Int) (f : Bool) (now₁ : Nat) :
    (read_watch_history
      (if ew then
        (if (read_watch_history wh u m).isSome then
          update_watch_history wh u m wd (some r) (some f)
        else wh ++ [⟨u, m, wd.getD now₁, some r, f⟩])
      else
        (if (read_watch_history wh u m).isSome then delete_watch_history wh u m
         else wh)) u m).isSome = ew := by
  cases ew <;> cases h : (read_watch_history wh u m).isSome
  · simp [h]
  · simp [read_watch_history_delete_self]
  · have hnone : read_watch_history wh u m = none :=
      Option.not_isSome_iff_eq_none.mp (by rw [h]; exact fun hc => by cases hc)
    simp [read_watch_history_append_self wh u m (wd.getD now₁) (some r) f hnone]
  · simp [read_update_isSome, h]

theorem read_after_first_ml (ml : MLTable) (u m : Nat) (em : Bool) :
    (read_mylist
      (if em then (if (read_mylist ml u m).isSome then ml else ml ++ [⟨u, m⟩])
       else (if (read_mylist ml u m).isSome then delete_mylist ml u m else ml))
      u m).isSome = em := by
  cases em <;> cases h : (read_mylist ml u m).isSome
  · simp [h]
  · simp [read_mylist_delete_self]
  · have hnone : read_mylist ml u m = none :=
      Option.not_isSome_iff_eq_none.mp (by rw [h]; exact fun hc => by cases hc)
    simp [read_mylist_append_self ml u m hnone]
  · simp [h]

theorem wh_second_state (wh : WHTable) (u m : Nat) (wd : Option Nat) (r : Int)
    (f : Bool) (now₁ : Nat) :
    update_watch_history
      (if (read_watch_history wh u m).isSome then
        update_watch_history wh u m wd (some r) (some f)
      else wh ++ [⟨u, m, wd.getD now₁, some r, f⟩]) u m wd (some r) (some f)
      = (if (read_watch_history wh u m).isSome then
          update_watch_history wh u m wd (some r) (some f)
        else wh ++ [⟨u, m, wd.getD now₁, some r, f⟩]) := by
  cases h : (read_watch_history wh u m).isSome
  · have hnone : read_watch_history wh u m = none :=
      Option.not_isSome_iff_eq_none.mp (by rw [h]; exact fun hc => by cases hc)
    simp only [Bool.false_eq_true, if_false]
    exact update_after_create wh u m wd r f now₁ hnone
  · simp only [if_pos]
    exact update_watch_history_idem wh u m wd (some r) (some f)

/-- Claim C9: applying the same edited snapshot twice with no
intervening change is idempotent: the first application performs the
create or delete, the second performs no further create or delete (its
only storage call is the redundant idempotent update issued whenever the
entry stays present), and storage is left in the same state as after the
first application — for both the watch-history and the personal-list
relation. -/
theorem C9_second_application_noop (db : DB) (u m : Nat) (e : EditedSnapshot)
    (now₁ now₂ : Nat) (db₁ : DB) (wa₁ : List WHAction) (ma₁ : List MLAction)
    (h : apply_edited_snapshot db u m e now₁ = .ok (db₁, wa₁, ma₁)) :
    apply_edited_snapshot db₁ u m e now₂
      = .ok (db₁,
          (if e.in_watch_history then
            [WHAction.update u m e.watch_date (some e.rating) (some e.is_favorite)]
          else []),
          ([] : List MLAction))
    ∧ (∀ a ∈ (if e.in_watch_history then
          [WHAction.update u m e.watch_date (some e.rating) (some e.is_favorite)]
        else ([] : List WHAction)),
        a.isCreate = false ∧ a.isDelete = false) := by
  constructor
  · rw [apply_edited_snapshot_spec] at h
    have h' := Except.ok.inj h
    have hdb : db₁ = _ := (congrArg Prod.fst h').symm
    subst hdb
    rw [apply_edited_snapshot_spec]
    dsimp only
    rw [read_after_first_wh db.wh u m e.in_watch_history e.watch_date e.rating
      e.is_favorite now₁, read_after_first_ml db.ml u m e.in_mylist]
    cases hew : e.in_watch_history <;> cases hem : e.in_mylist <;>
      simp [wh_second_state]
  · cases e.in_watch_history <;>
      simp [WHAction.isCreate, WHAction.isDelete]

/-- Witness for C9 at a concrete store: toggling movie 9 into both
relations for user 5 twice creates once and then re-issues only the
idempotent update. -/
theorem C9_second_application_noop_witness :
    apply_edited_snapshot
        (⟨[⟨5, 9, 7, some 4, true⟩], [⟨5, 9⟩]⟩ : DB) 5 9
        ⟨true, true, some 7, 4, true⟩ 200
      = .ok ((⟨[⟨5, 9, 7, some 4, true⟩], [⟨5, 9⟩]⟩ : DB),
          [WHAction.update 5 9 (some 7) (some 4) (some true)],
          ([] : List MLAction)) := by
  have h := C9_second_application_noop (⟨[], []⟩ : DB) 5 9
    ⟨true, true, some 7, 4, true⟩ 100 200
    (⟨[⟨5, 9, 7, some 4, true⟩], [⟨5, 9⟩]⟩ : DB)
    [WHAction.create 5 9 7 (some 4) true] [MLAction.create 5 9] (by rfl)
  simpa using h.1

end CinemaApp
